import Mathlib

/-!
# Verification of the NBA data-lake provisioning script

A shallow embedding of `src/basketball.py`: a one-shot script that creates an
S3 bucket, fetches NBA player records over HTTP, uploads them as
newline-delimited JSON, registers a Glue database and table, and issues an
Athena probe query.

Modelling choices:
* Every outbound SDK/HTTP call is an oracle supplied through an `Env` value:
  the call either returns a value or raises an exception (`Except Exc`).
* Python exceptions are the type `Exc`: `ClientError` (botocore, carries a
  machine-readable error code), `RequestException` (requests; also covers the
  `raise_for_status` non-2xx path, since `HTTPError` is a subclass), and any
  other exception class identified by name (e.g. `TypeError` from
  `json.dumps`).
* Each step function returns a `StepOut`: the provider calls it issued (in
  order), the lines it printed, and either a value or the exception that
  propagated out of it uncaught.  `try/except ClientError` blocks are
  mirrored exactly: only `Exc.clientError` is caught where the source catches
  `ClientError`, only `Exc.requestException` where it catches
  `RequestException`.
* The top-level statement sequence is `runMain`, which additionally logs a
  marker event at the entry of each step so that "step X was attempted" is
  observable.  An uncaught exception aborts the sequence (the Python
  interpreter terminates with a traceback and exit status 1); reaching the
  end is exit status 0.
* `json.dumps` is modelled at the character-list level with CPython's default
  options (`ensure_ascii=True`, separators `", "` / `": "`): ASCII printable
  characters pass through, `"` and `\` get two-character escapes, the five
  short control escapes and `\uXXXX` escapes cover the rest.
-/

/-- A Python exception, as far as this script can distinguish them. -/
inductive Exc where
  | clientError (code : String)
  | requestException
  | otherError (name : String)
deriving DecidableEq, Repr

/-- Does `except ClientError` catch this exception? -/
def Exc.isClientError : Exc → Bool
  | .clientError _ => true
  | _ => false

/-- The human-readable rendering `f"... {e}"` interpolates. -/
def excMsg : Exc → String
  | .clientError code => "ClientError: " ++ code
  | .requestException => "RequestException"
  | .otherError n => n

/-- A JSON value as it appears in a fetched record: the API returns string
fields; anything `json.dumps` cannot encode is `unserializable` (dumping it
raises `TypeError`). -/
inductive JValue where
  | str (s : String)
  | unserializable
deriving DecidableEq, Repr

/-- One fetched record: an ordered dict of field/value pairs. -/
def Record := List (String × JValue)
deriving DecidableEq, Repr

/-! ## The JSON serializer (`json.dumps` with default options) -/

/-- Lower-case hex digit. -/
def hexDigit : Nat → Char
  | 0 => '0' | 1 => '1' | 2 => '2' | 3 => '3'
  | 4 => '4' | 5 => '5' | 6 => '6' | 7 => '7'
  | 8 => '8' | 9 => '9' | 10 => 'a' | 11 => 'b'
  | 12 => 'c' | 13 => 'd' | 14 => 'e' | _ => 'f'

/-- A `\uXXXX` escape for a code unit below 0x10000. -/
def uEscape4 (n : Nat) : List Char :=
  ['\\', 'u', hexDigit (n / 4096 % 16), hexDigit (n / 256 % 16),
   hexDigit (n / 16 % 16), hexDigit (n % 16)]

/-- The `ensure_ascii` escape of a non-ASCII character: a `\uXXXX` escape,
or a surrogate pair for code points beyond the basic plane. -/
def uEscape (c : Char) : List Char :=
  if c.toNat < 0x10000 then uEscape4 c.toNat
  else uEscape4 (0xD800 + (c.toNat - 0x10000) / 0x400) ++
       uEscape4 (0xDC00 + (c.toNat - 0x10000) % 0x400)

/-- How `json.dumps` renders one character inside a string literal. -/
def escChar (c : Char) : List Char :=
  if c = '"' then ['\\', '"']
  else if c = '\\' then ['\\', '\\']
  else if c = '\x08' then ['\\', 'b']
  else if c = '\x09' then ['\\', 't']
  else if c = '\x0a' then ['\\', 'n']
  else if c = '\x0c' then ['\\', 'f']
  else if c = '\x0d' then ['\\', 'r']
  else if c.toNat < 0x20 ∨ 0x7e < c.toNat then uEscape c
  else [c]

/-- Escape every character of a string body. -/
def escList : List Char → List Char
  | [] => []
  | c :: cs => escChar c ++ escList cs

/-- A JSON string literal: quotes around the escaped body. -/
def quoteChars (s : String) : List Char :=
  '"' :: escList s.data ++ ['"']

/-- Serialize one value; `TypeError` on an unserializable one. -/
def dumpValueChars : JValue → Except Exc (List Char)
  | .str s => .ok (quoteChars s)
  | .unserializable => .error (.otherError "TypeError")

/-- The `"k": v` entries of a dict, joined by `", "` (the default item
separator). -/
def dumpEntries : List (String × JValue) → Except Exc (List Char)
  | [] => .ok []
  | [(k, v)] => do
      let vc ← dumpValueChars v
      pure (quoteChars k ++ ':' :: ' ' :: vc)
  | (k, v) :: e :: rest => do
      let vc ← dumpValueChars v
      let rc ← dumpEntries (e :: rest)
      pure (quoteChars k ++ ':' :: ' ' :: vc ++ ',' :: ' ' :: rc)

/-- `json.dumps(record)` for a dict record. -/
def dumpRecordChars (r : Record) : Except Exc (List Char) := do
  let ec ← dumpEntries r
  pure ('\x7b' :: ec ++ ['\x7d'])

/-- `"\n".join(json.dumps(record) for record in data)`: the records one per
line; the first serialization failure raises. -/
def jsonLinesChars : List Record → Except Exc (List Char)
  | [] => .ok []
  | [r] => dumpRecordChars r
  | r :: r2 :: rest => do
      let rc ← dumpRecordChars r
      let restc ← jsonLinesChars (r2 :: rest)
      pure (rc ++ '\n' :: restc)

/-! ## Fixed configuration (module-level constants of the script) -/

def bucket_name : String := "sports-analytics-data-lake-osagie123"
def database_name : String := "glue_nba_data_lake"
def table_name : String := "nba_players"
def s3_output_location : String := "s3://" ++ bucket_name ++ "/athena-results/"
def file_key : String := "raw-data/nba_player_data.jsonl"

/-- The `TableInput` argument of `glue.create_table`. -/
structure TableInput where
  name : String
  columns : List (String × String)
  location : String
  inputFormat : String
  outputFormat : String
  serializationLibrary : String
  tableType : String
deriving DecidableEq, Repr

/-- The one concrete `TableInput` the script ever builds. -/
def tableInputDef : TableInput where
  name := table_name
  columns := [("FirstName", "string"), ("LastName", "string"),
              ("Position", "string"), ("Team", "string")]
  location := "s3://" ++ bucket_name ++ "/raw-data/"
  inputFormat := "org.apache.hadoop.mapred.TextInputFormat"
  outputFormat := "org.apache.hadoop.hive.ql.io.HiveIgnoreKeyTextOutputFormat"
  serializationLibrary := "org.openx.data.jsonserde.JsonSerDe"
  tableType := "EXTERNAL_TABLE"

/-! ## Observable events and step outcomes -/

/-- What a run makes observable: the provider/HTTP calls issued with their
arguments, plus a marker at the entry of each top-level step. -/
inductive Event where
  | stepBucket | stepFetch | stepUpload | stepDatabase | stepTable | stepAthena
  | callCreateBucket (bucket : String)
  | callHttpGet
  | callPutObject (bucket key : String) (body : List Char)
  | callGetDatabases
  | callCreateDatabase (name description : String)
  | callGetTables (db : String)
  | callCreateTable (db : String) (input : TableInput)
  | callStartQuery (query db output : String)
deriving DecidableEq, Repr

/-- Outcome of running one step (or the whole script): the calls it issued,
the lines it printed, and either a returned value or the exception that left
it uncaught. -/
structure StepOut (α : Type) where
  events : List Event
  prints : List String
  result : Except Exc α

/-- `true` when the step finished without an uncaught exception. -/
def StepOut.okB (s : StepOut α) : Bool :=
  match s.result with
  | .ok _ => true
  | .error _ => false

/-- The outside world: what each outbound call would do if issued.  Listing
calls return the existing entity names. -/
structure Env where
  createBucket : Except Exc Unit
  httpGet : Except Exc (List Record)
  putObject : Except Exc Unit
  getDatabases : Except Exc (List String)
  createDatabase : Except Exc Unit
  getTables : Except Exc (List String)
  createTable : Except Exc Unit
  startQuery : Except Exc Unit

/-! ## The six steps -/

/-- Step 1 (`create_s3_bucket`): optimistic create; `except ClientError`
special-cases `BucketAlreadyOwnedByYou`, logs any other client error;
non-`ClientError` exceptions are not caught. -/
def create_s3_bucket (r : Except Exc Unit) : StepOut Unit :=
  match r with
  | .ok _ =>
      ⟨[.callCreateBucket bucket_name],
       ["S3 bucket '" ++ bucket_name ++ "' created successfully."], .ok ()⟩
  | .error (.clientError code) =>
      if code = "BucketAlreadyOwnedByYou" then
        ⟨[.callCreateBucket bucket_name],
         ["S3 bucket '" ++ bucket_name ++ "' already exists. Skipping creation."], .ok ()⟩
      else
        ⟨[.callCreateBucket bucket_name],
         ["Error creating S3 bucket: " ++ excMsg (.clientError code)], .ok ()⟩
  | .error e => ⟨[.callCreateBucket bucket_name], [], .error e⟩

/-- Step 2 (`fetch_nba_data`): one authenticated GET; `raise_for_status` folds
non-2xx into `RequestException`; on a caught `RequestException` the function
logs and returns `None`; anything else is not caught. -/
def fetch_nba_data (r : Except Exc (List Record)) : StepOut (Option (List Record)) :=
  match r with
  | .ok xs => ⟨[.callHttpGet], ["Fetched NBA data successfully."], .ok (some xs)⟩
  | .error .requestException =>
      ⟨[.callHttpGet], ["Error fetching NBA data: " ++ excMsg .requestException], .ok none⟩
  | .error e => ⟨[.callHttpGet], [], .error e⟩

/-- Step 3 (`upload_to_s3`): builds the newline-joined body, then one
`put_object`; `except ClientError` logs client errors; a serialization
`TypeError` (or any other non-`ClientError`) propagates. -/
def upload_to_s3 (data : List Record) (p : Except Exc Unit) : StepOut Unit :=
  match jsonLinesChars data with
  | .error (.clientError code) =>
      ⟨[], ["Error uploading data to S3: " ++ excMsg (.clientError code)], .ok ()⟩
  | .error e => ⟨[], [], .error e⟩
  | .ok body =>
      match p with
      | .ok _ =>
          ⟨[.callPutObject bucket_name file_key body],
           ["Uploaded data to S3: " ++ file_key], .ok ()⟩
      | .error (.clientError code) =>
          ⟨[.callPutObject bucket_name file_key body],
           ["Error uploading data to S3: " ++ excMsg (.clientError code)], .ok ()⟩
      | .error e => ⟨[.callPutObject bucket_name file_key body], [], .error e⟩

/-- Step 4 (`create_glue_database`): list, then create unless some listed
name equals the target.  There is no `try` in the source: every exception
propagates. -/
def create_glue_database (gd : Except Exc (List String))
    (cd : Except Exc Unit) : StepOut Unit :=
  match gd with
  | .error e => ⟨[.callGetDatabases], [], .error e⟩
  | .ok dbs =>
      if dbs.any (fun db => db == database_name) then
        ⟨[.callGetDatabases],
         ["Glue database '" ++ database_name ++ "' already exists. Skipping creation."],
         .ok ()⟩
      else
        match cd with
        | .ok _ =>
            ⟨[.callGetDatabases, .callCreateDatabase database_name "NBA Data Lake"],
             ["Glue database '" ++ database_name ++ "' created successfully."], .ok ()⟩
        | .error e =>
            ⟨[.callGetDatabases, .callCreateDatabase database_name "NBA Data Lake"],
             [], .error e⟩

/-- Step 5 (`create_glue_table`): list, then create unless some listed name
equals the target.  No `try` in the source: every exception propagates. -/
def create_glue_table (gt : Except Exc (List String))
    (ct : Except Exc Unit) : StepOut Unit :=
  match gt with
  | .error e => ⟨[.callGetTables database_name], [], .error e⟩
  | .ok tbls =>
      if tbls.any (fun tbl => tbl == table_name) then
        ⟨[.callGetTables database_name],
         ["Glue table '" ++ table_name ++ "' already exists. Skipping creation."],
         .ok ()⟩
      else
        match ct with
        | .ok _ =>
            ⟨[.callGetTables database_name, .callCreateTable database_name tableInputDef],
             ["Glue table '" ++ table_name ++ "' created successfully."], .ok ()⟩
        | .error e =>
            ⟨[.callGetTables database_name, .callCreateTable database_name tableInputDef],
             [], .error e⟩

/-- Step 6 (`configure_athena`): one `start_query_execution` probe;
`except ClientError` logs client errors; anything else propagates. -/
def configure_athena (q : Except Exc Unit) : StepOut Unit :=
  match q with
  | .ok _ =>
      ⟨[.callStartQuery "SELECT 1" database_name s3_output_location],
       ["Athena output location configured successfully."], .ok ()⟩
  | .error (.clientError code) =>
      ⟨[.callStartQuery "SELECT 1" database_name s3_output_location],
       ["Error configuring Athena: " ++ excMsg (.clientError code)], .ok ()⟩
  | .error e =>
      ⟨[.callStartQuery "SELECT 1" database_name s3_output_location], [], .error e⟩

/-! ## The top-level sequence -/

/-- Run one step behind its marker; an uncaught exception aborts the rest of
the script, otherwise the continuation runs. -/
def seqStep (marker : Event) (s : StepOut α) (k : α → StepOut Unit) : StepOut Unit :=
  match s.result with
  | .error e => ⟨marker :: s.events, s.prints, .error e⟩
  | .ok a =>
      let t := k a
      ⟨marker :: s.events ++ t.events, s.prints ++ t.prints, t.result⟩

/-- Steps 4–6, which the script runs regardless of the fetch outcome. -/
def runTail (env : Env) : StepOut Unit :=
  seqStep .stepDatabase (create_glue_database env.getDatabases env.createDatabase) fun _ =>
  seqStep .stepTable (create_glue_table env.getTables env.createTable) fun _ =>
  seqStep .stepAthena (configure_athena env.startQuery) fun _ => ⟨[], [], .ok ()⟩

/-- The module-level statement sequence: steps 1 and 2, the truthiness guard
`if nba_data:` (upload only on a non-`None`, non-empty result), then steps
4–6. -/
def runMain (env : Env) : StepOut Unit :=
  seqStep .stepBucket (create_s3_bucket env.createBucket) fun _ =>
  seqStep .stepFetch (fetch_nba_data env.httpGet) fun nbaData =>
  match nbaData with
  | some (x :: xs) =>
      seqStep .stepUpload (upload_to_s3 (x :: xs) env.putObject) fun _ => runTail env
  | _ => runTail env

/-- The process exit status: 0 when the script reaches its end, 1 when an
uncaught exception terminates the interpreter. -/
def exitCode (s : StepOut Unit) : Nat :=
  match s.result with
  | .ok _ => 0
  | .error _ => 1

def joinNL : List (List Char) → List Char
  | [] => []
  | [p] => p
  | p :: q :: ps => p ++ '\n' :: joinNL (q :: ps)

def splitNL : List Char → List (List Char)
  | [] => [[]]
  | c :: cs =>
      if c = '\n' then [] :: splitNL cs
      else
        match splitNL cs with
        | [] => [[c]]
        | p :: ps => (c :: p) :: ps

def recABGX : Record :=
  [("FirstName", .str "A"), ("LastName", .str "B"),
   ("Position", .str "G"), ("Team", .str "X")]

def abgxLine : List Char :=
  "\x7b\"FirstName\": \"A\", \"LastName\": \"B\", \"Position\": \"G\", \"Team\": \"X\"\x7d".data

def isMarker : Event → Bool
  | .stepBucket | .stepFetch | .stepUpload | .stepDatabase | .stepTable | .stepAthena => true
  | _ => false

def swallowedS3 (r : Except Exc Unit) : Prop :=
  r = .ok () ∨ ∃ c, r = .error (.clientError c)

def fetchOut (r : Except Exc (List Record)) : Prop :=
  r = .error .requestException ∨ ∃ xs body, r = .ok xs ∧ jsonLinesChars xs = .ok body

def envAllOk : Env := ⟨.ok (), .ok [], .ok (), .ok [], .ok (), .ok [], .ok (), .ok ()⟩

def envFetchOne : Env := ⟨.ok (), .ok [recABGX], .ok (), .ok [], .ok (), .ok [], .ok (), .ok ()⟩

def envWithDb (gd : Except Exc (List String)) : Env :=
  ⟨.ok (), .ok [], .ok (), gd, .ok (), .ok [], .ok (), .ok ()⟩

def envWithTable (gt : Except Exc (List String)) : Env :=
  ⟨.ok (), .ok [], .ok (), .ok [], .ok (), gt, .ok (), .ok ()⟩

def envDbCrash : Env := envWithDb (.error (.clientError "AccessDeniedException"))

def envTableCrash : Env := envWithTable (.error (.clientError "EntityNotFoundException"))

def envPutCrash (n : String) : Env :=
  ⟨.ok (), .ok [recABGX], .error (.otherError n), .ok [], .ok (), .ok [], .ok (), .ok ()⟩

def tailEventUniverse : List Event :=
  [.stepDatabase, .callGetDatabases, .callCreateDatabase database_name "NBA Data Lake",
   .stepTable, .callGetTables database_name, .callCreateTable database_name tableInputDef,
   .stepAthena, .callStartQuery "SELECT 1" database_name s3_output_location]

theorem hexDigit_ne_newline (n : Nat) : hexDigit n ≠ '\n' := by
  unfold hexDigit; split <;> decide

theorem newline_not_mem_uEscape4 (n : Nat) : '\n' ∉ uEscape4 n := by
  intro h
  simp only [uEscape4, List.mem_cons, List.not_mem_nil, or_false] at h
  rcases h with h | h | h | h | h | h
  · exact absurd h (by decide)
  · exact absurd h (by decide)
  all_goals exact hexDigit_ne_newline _ h.symm

theorem newline_not_mem_uEscape (c : Char) : '\n' ∉ uEscape c := by
  unfold uEscape
  split
  · exact newline_not_mem_uEscape4 _
  · intro h
    rcases List.mem_append.mp h with h | h
    · exact newline_not_mem_uEscape4 _ h
    · exact newline_not_mem_uEscape4 _ h

theorem newline_not_mem_escChar (c : Char) : '\n' ∉ escChar c := by
  unfold escChar
  split_ifs with h1 h2 h3 h4 h5 h6 h7 h8
  · decide
  · decide
  · decide
  · decide
  · decide
  · decide
  · decide
  · exact newline_not_mem_uEscape c
  · intro h
    rcases List.mem_singleton.mp h with rfl
    exact h5 rfl

theorem newline_not_mem_escList (l : List Char) : '\n' ∉ escList l := by
  induction l with
  | nil => simp [escList]
  | cons c cs ih =>
    intro h
    rcases List.mem_append.mp h with h | h
    · exact newline_not_mem_escChar c h
    · exact ih h

theorem newline_not_mem_quoteChars (s : String) : '\n' ∉ quoteChars s := by
  intro h
  rcases List.mem_cons.mp h with h | h
  · exact absurd h (by decide)
  · rcases List.mem_append.mp h with h | h
    · exact newline_not_mem_escList _ h
    · exact absurd (List.mem_singleton.mp h) (by decide)

theorem newline_not_mem_dumpValue (v : JValue) (lc : List Char)
    (h : dumpValueChars v = .ok lc) : '\n' ∉ lc := by
  cases v with
  | str s =>
    simp only [dumpValueChars] at h
    cases h
    exact newline_not_mem_quoteChars s
  | unserializable => simp [dumpValueChars] at h

theorem newline_not_mem_dumpEntries (l : List (String × JValue)) (lc : List Char)
    (h : dumpEntries l = .ok lc) : '\n' ∉ lc := by
  induction l generalizing lc with
  | nil =>
    simp only [dumpEntries] at h
    cases h
    simp
  | cons kv rest ih =>
    obtain ⟨k, v⟩ := kv
    cases rest with
    | nil =>
      simp only [dumpEntries] at h
      cases hv : dumpValueChars v with
      | error e => rw [hv] at h; cases h
      | ok vc =>
        rw [hv] at h
        simp only [Except.bind, pure, Except.pure] at h
        cases h
        intro hm
        rcases List.mem_append.mp hm with hm | hm
        · exact newline_not_mem_quoteChars _ hm
        · rcases List.mem_cons.mp hm with hm | hm
          · exact absurd hm (by decide)
          · rcases List.mem_cons.mp hm with hm | hm
            · exact absurd hm (by decide)
            · exact newline_not_mem_dumpValue v vc hv hm
    | cons e2 rest2 =>
      simp only [dumpEntries] at h
      cases hv : dumpValueChars v with
      | error e => rw [hv] at h; cases h
      | ok vc =>
        rw [hv] at h
        cases hr : dumpEntries (e2 :: rest2) with
        | error e => rw [hr] at h; cases h
        | ok rc =>
          rw [hr] at h
          simp only [Except.bind, pure, Except.pure] at h
          cases h
          intro hm
          rcases List.mem_append.mp hm with hm | hm
          · rcases List.mem_append.mp hm with hm | hm
            · exact newline_not_mem_quoteChars _ hm
            · rcases List.mem_cons.mp hm with hm | hm
              · exact absurd hm (by decide)
              · rcases List.mem_cons.mp hm with hm | hm
                · exact absurd hm (by decide)
                · exact newline_not_mem_dumpValue v vc hv hm
          · rcases List.mem_cons.mp hm with hm | hm
            · exact absurd hm (by decide)
            · rcases List.mem_cons.mp hm with hm | hm
              · exact absurd hm (by decide)
              · exact ih rc hr hm

theorem newline_not_mem_dumpRecord (r : Record) (lc : List Char)
    (h : dumpRecordChars r = .ok lc) : '\n' ∉ lc := by
  simp only [dumpRecordChars] at h
  cases he : dumpEntries r with
  | error e => rw [he] at h; cases h
  | ok ec =>
    rw [he] at h
    simp only [Except.bind, pure, Except.pure] at h
    cases h
    intro hm
    rcases List.mem_cons.mp hm with hm | hm
    · exact absurd hm (by decide)
    · rcases List.mem_append.mp hm with hm | hm
      · exact newline_not_mem_dumpEntries r ec he hm
      · exact absurd (List.mem_singleton.mp hm) (by decide)

theorem dumpRecord_getLast (r : Record) (lc : List Char)
    (h : dumpRecordChars r = .ok lc) : lc.getLast? = some '\x7d' := by
  simp only [dumpRecordChars] at h
  cases he : dumpEntries r with
  | error e => rw [he] at h; cases h
  | ok ec =>
    rw [he] at h
    simp only [Except.bind, pure, Except.pure] at h
    cases h
    rw [show ('\x7b' :: ec ++ ['\x7d']) = ('\x7b' :: ec) ++ ['\x7d'] by simp]
    exact List.getLast?_concat _

theorem splitNL_no_newline (p : List Char) (h : '\n' ∉ p) : splitNL p = [p] := by
  induction p with
  | nil => rfl
  | cons c cs ih =>
    have hc : ¬ c = '\n' := fun hh => h (hh ▸ List.mem_cons_self c cs)
    have hcs : '\n' ∉ cs := fun hh => h (List.mem_cons_of_mem c hh)
    simp only [splitNL, hc, if_false, ih hcs]

theorem splitNL_append_newline (p l : List Char) (h : '\n' ∉ p) :
    splitNL (p ++ '\n' :: l) = p :: splitNL l := by
  induction p with
  | nil => simp [splitNL]
  | cons c cs ih =>
    have hc : ¬ c = '\n' := fun hh => h (hh ▸ List.mem_cons_self c cs)
    have hcs : '\n' ∉ cs := fun hh => h (List.mem_cons_of_mem c hh)
    simp only [List.cons_append, splitNL, hc, if_false, List.append_eq, ih hcs]

theorem splitNL_joinNL (ls : List (List Char)) (hne : ls ≠ [])
    (h : ∀ p ∈ ls, '\n' ∉ p) : splitNL (joinNL ls) = ls := by
  induction ls with
  | nil => exact absurd rfl hne
  | cons p ps ih =>
    cases ps with
    | nil => exact splitNL_no_newline p (h p (List.mem_cons_self p []))
    | cons q qs =>
      have hp : '\n' ∉ p := h p (List.mem_cons_self p _)
      have hrest : ∀ x ∈ q :: qs, '\n' ∉ x := fun x hx => h x (List.mem_cons_of_mem p hx)
      simp only [joinNL, splitNL_append_newline p _ hp, ih (by simp) hrest]

/-- Claim C9: the body built by the upload step preserves record count and
order — it is the serializations of the records joined by single newline
characters, each serialization is newline-free (one line per record, the
i-th line being the serialization of the i-th record, as splitting the body
on newlines recovers exactly that list), and the body ends in the closing
brace of the last record, not in a trailing newline. -/
theorem jsonLines_structure (data : List Record) (body : List Char)
    (h : jsonLinesChars data = .ok body) :
    ∃ ls : List (List Char),
      ls.length = data.length ∧
      (∀ i (h1 : i < data.length) (h2 : i < ls.length),
          dumpRecordChars (data.get ⟨i, h1⟩) = .ok (ls.get ⟨i, h2⟩)) ∧
      body = joinNL ls ∧
      (∀ l ∈ ls, '\n' ∉ l) ∧
      (data ≠ [] → splitNL body = ls ∧ body.getLast? = some '\x7d') := by
  induction data generalizing body with
  | nil =>
    simp only [jsonLinesChars] at h
    cases h
    refine ⟨[], rfl, ?_, rfl, by simp, by simp⟩
    intro i h1
    exact absurd h1 (by simp)
  | cons r rest ih =>
    cases rest with
    | nil =>
      have hr : dumpRecordChars r = .ok body := h
      refine ⟨[body], rfl, ?_, rfl, ?_, ?_⟩
      · intro i h1 h2
        cases i with
        | zero => simpa using hr
        | succ j => exact absurd h1 (by simp)
      · intro l hl
        rcases List.mem_singleton.mp hl with rfl
        exact newline_not_mem_dumpRecord r l hr
      · intro _
        exact ⟨splitNL_no_newline body (newline_not_mem_dumpRecord r body hr),
               dumpRecord_getLast r body hr⟩
    | cons r2 rest2 =>
      simp only [jsonLinesChars] at h
      cases hr : dumpRecordChars r with
      | error e => rw [hr] at h; cases h
      | ok rc =>
        rw [hr] at h
        cases hrest : jsonLinesChars (r2 :: rest2) with
        | error e => rw [hrest] at h; cases h
        | ok restc =>
          rw [hrest] at h
          simp only [Except.bind, pure, Except.pure] at h
          cases h
          obtain ⟨ls, hlen, hget, hbody, hnl, htail⟩ := ih restc hrest
          have hlsne : ls ≠ [] := by
            intro hh
            rw [hh] at hlen
            exact absurd hlen.symm (by simp)
          refine ⟨rc :: ls, by simp [hlen], ?_, ?_, ?_, ?_⟩
          · intro i h1 h2
            cases i with
            | zero => simpa using hr
            | succ j =>
              simpa using hget j (by simpa using h1) (by simpa using h2)
          · cases ls with
            | nil => exact absurd rfl hlsne
            | cons l0 ls0 => simp only [joinNL, hbody]
          · intro l hl
            rcases List.mem_cons.mp hl with rfl | hl
            · exact newline_not_mem_dumpRecord r l hr
            · exact hnl l hl
          · intro _
            obtain ⟨hsplit, hlast⟩ := htail (by simp)
            constructor
            · rw [splitNL_append_newline rc restc (newline_not_mem_dumpRecord r rc hr), hsplit]
            · cases restc with
              | nil => cases hlast
              | cons c0 cs0 =>
                rw [List.getLast?_append_cons, List.getLast?_cons_cons]
                exact hlast

theorem okB_unit (s : StepOut Unit) (h : s.okB = true) : s.result = .ok () := by
  unfold StepOut.okB at h
  cases hr : s.result with
  | ok a => cases a; rfl
  | error e => rw [hr] at h; cases h

theorem bucket_ok_of_swallowed (r : Except Exc Unit) (h : swallowedS3 r) :
    (create_s3_bucket r).result = .ok () := by
  rcases h with rfl | ⟨c, rfl⟩
  · rfl
  · by_cases hc : c = "BucketAlreadyOwnedByYou" <;> simp [create_s3_bucket, hc]

theorem athena_ok_of_swallowed (q : Except Exc Unit) (h : swallowedS3 q) :
    (configure_athena q).result = .ok () := by
  rcases h with rfl | ⟨c, rfl⟩ <;> rfl

theorem upload_ok_of_swallowed (data : List Record) (body : List Char) (p : Except Exc Unit)
    (hs : jsonLinesChars data = .ok body) (h : swallowedS3 p) :
    (upload_to_s3 data p).result = .ok () := by
  unfold upload_to_s3
  rw [hs]
  rcases h with rfl | ⟨c, rfl⟩ <;> rfl

theorem seqStep_result_ok {α : Type} (m : Event) (s : StepOut α) (k : α → StepOut Unit)
    (a : α) (h : s.result = .ok a) : (seqStep m s k).result = (k a).result := by
  unfold seqStep
  rw [h]

theorem seqStep_events_ok {α : Type} (m : Event) (s : StepOut α) (k : α → StepOut Unit)
    (a : α) (h : s.result = .ok a) :
    (seqStep m s k).events = m :: s.events ++ (k a).events := by
  unfold seqStep
  rw [h]

theorem seqStep_events_error {α : Type} (m : Event) (s : StepOut α) (k : α → StepOut Unit)
    (e : Exc) (h : s.result = .error e) :
    (seqStep m s k).events = m :: s.events := by
  unfold seqStep
  rw [h]

theorem runTail_ok (env : Env)
    (h4 : (create_glue_database env.getDatabases env.createDatabase).okB = true)
    (h5 : (create_glue_table env.getTables env.createTable).okB = true)
    (h6 : swallowedS3 env.startQuery) :
    (runTail env).result = .ok () := by
  unfold runTail
  rw [seqStep_result_ok _ _ _ () (okB_unit _ h4),
      seqStep_result_ok _ _ _ () (okB_unit _ h5),
      seqStep_result_ok _ _ _ () (athena_ok_of_swallowed _ h6)]

theorem events_bucket (r : Except Exc Unit) :
    (create_s3_bucket r).events = [Event.callCreateBucket bucket_name] := by
  cases r with
  | ok a => rfl
  | error e =>
    cases e with
    | clientError c =>
      by_cases hc : c = "BucketAlreadyOwnedByYou" <;> simp [create_s3_bucket, hc]
    | requestException => rfl
    | otherError n => rfl

theorem events_fetch (r : Except Exc (List Record)) :
    (fetch_nba_data r).events = [Event.callHttpGet] := by
  cases r with
  | ok xs => rfl
  | error e => cases e <;> rfl

theorem events_athena (q : Except Exc Unit) :
    (configure_athena q).events =
      [Event.callStartQuery "SELECT 1" database_name s3_output_location] := by
  cases q with
  | ok a => rfl
  | error e => cases e <;> rfl

theorem events_db (gd : Except Exc (List String)) (cd : Except Exc Unit) :
    (create_glue_database gd cd).events = [Event.callGetDatabases] ∨
    (create_glue_database gd cd).events =
      [Event.callGetDatabases, Event.callCreateDatabase database_name "NBA Data Lake"] := by
  cases gd with
  | error e => exact Or.inl rfl
  | ok dbs =>
    by_cases h : dbs.any (fun db => db == database_name)
    · exact Or.inl (by simp [create_glue_database, h])
    · cases cd with
      | ok a => exact Or.inr (by simp [create_glue_database, h])
      | error e => exact Or.inr (by simp [create_glue_database, h])

theorem events_table (gt : Except Exc (List String)) (ct : Except Exc Unit) :
    (create_glue_table gt ct).events = [Event.callGetTables database_name] ∨
    (create_glue_table gt ct).events =
      [Event.callGetTables database_name, Event.callCreateTable database_name tableInputDef] := by
  cases gt with
  | error e => exact Or.inl rfl
  | ok tbls =>
    by_cases h : tbls.any (fun tbl => tbl == table_name)
    · exact Or.inl (by simp [create_glue_table, h])
    · cases ct with
      | ok a => exact Or.inr (by simp [create_glue_table, h])
      | error e => exact Or.inr (by simp [create_glue_table, h])

theorem events_upload (data : List Record) (p : Except Exc Unit) :
    (upload_to_s3 data p).events = [] ∨
    ∃ body, (upload_to_s3 data p).events =
      [Event.callPutObject bucket_name file_key body] := by
  cases hj : jsonLinesChars data with
  | error e =>
    cases e with
    | clientError c => exact Or.inl (by simp [upload_to_s3, hj])
    | requestException => exact Or.inl (by simp [upload_to_s3, hj])
    | otherError n => exact Or.inl (by simp [upload_to_s3, hj])
  | ok body =>
    refine Or.inr ⟨body, ?_⟩
    cases p with
    | ok a => simp [upload_to_s3, hj]
    | error e => cases e <;> simp [upload_to_s3, hj]

theorem markers_bucket (r : Except Exc Unit) :
    ((create_s3_bucket r).events).filter isMarker = [] := by
  rw [events_bucket]; rfl

theorem markers_fetch (r : Except Exc (List Record)) :
    ((fetch_nba_data r).events).filter isMarker = [] := by
  rw [events_fetch]; rfl

theorem markers_athena (q : Except Exc Unit) :
    ((configure_athena q).events).filter isMarker = [] := by
  rw [events_athena]; rfl

theorem markers_db (gd : Except Exc (List String)) (cd : Except Exc Unit) :
    ((create_glue_database gd cd).events).filter isMarker = [] := by
  rcases events_db gd cd with h | h <;> rw [h] <;> rfl

theorem markers_table (gt : Except Exc (List String)) (ct : Except Exc Unit) :
    ((create_glue_table gt ct).events).filter isMarker = [] := by
  rcases events_table gt ct with h | h <;> rw [h] <;> rfl

theorem markers_upload (data : List Record) (p : Except Exc Unit) :
    ((upload_to_s3 data p).events).filter isMarker = [] := by
  rcases events_upload data p with h | ⟨body, h⟩ <;> rw [h] <;> rfl

theorem markers_runTail (env : Env)
    (h4 : (create_glue_database env.getDatabases env.createDatabase).okB = true)
    (h5 : (create_glue_table env.getTables env.createTable).okB = true) :
    ((runTail env).events).filter isMarker =
      [Event.stepDatabase, Event.stepTable, Event.stepAthena] := by
  unfold runTail
  rw [seqStep_events_ok _ _ _ () (okB_unit _ h4)]
  rw [seqStep_events_ok _ _ _ () (okB_unit _ h5)]
  cases hq : (configure_athena env.startQuery).result with
  | ok a =>
    cases a
    rw [seqStep_events_ok _ _ _ () hq]
    simp [List.filter_append, List.filter_cons, markers_db, markers_table,
      markers_athena, isMarker]
  | error e =>
    rw [seqStep_events_error _ _ _ e hq]
    simp [List.filter_append, List.filter_cons, markers_db, markers_table,
      markers_athena, isMarker]

theorem runTail_events_subset (env : Env) :
    ∀ x ∈ (runTail env).events, x ∈ tailEventUniverse := by
  unfold runTail
  cases h4 : (create_glue_database env.getDatabases env.createDatabase).result with
  | error e =>
    rw [seqStep_events_error _ _ _ e h4]
    intro x hx
    rcases List.mem_cons.mp hx with rfl | hx
    · decide
    · rcases events_db env.getDatabases env.createDatabase with h | h <;>
        rw [h] at hx <;> fin_cases hx <;> decide
  | ok a =>
    cases a
    rw [seqStep_events_ok _ _ _ () h4]
    intro x hx
    rcases List.mem_cons.mp hx with rfl | hx
    · decide
    rcases List.mem_append.mp hx with hx | hx
    · rcases events_db env.getDatabases env.createDatabase with h | h <;>
        rw [h] at hx <;> fin_cases hx <;> decide
    cases h5 : (create_glue_table env.getTables env.createTable).result with
    | error e =>
      rw [seqStep_events_error _ _ _ e h5] at hx
      rcases List.mem_cons.mp hx with rfl | hx
      · decide
      · rcases events_table env.getTables env.createTable with h | h <;>
          rw [h] at hx <;> fin_cases hx <;> decide
    | ok a =>
      cases a
      rw [seqStep_events_ok _ _ _ () h5] at hx
      rcases List.mem_cons.mp hx with rfl | hx
      · decide
      rcases List.mem_append.mp hx with hx | hx
      · rcases events_table env.getTables env.createTable with h | h <;>
          rw [h] at hx <;> fin_cases hx <;> decide
      cases h6 : (configure_athena env.startQuery).result with
      | error e =>
        rw [seqStep_events_error _ _ _ e h6] at hx
        rcases List.mem_cons.mp hx with rfl | hx
        · decide
        · rw [events_athena] at hx; fin_cases hx; decide
      | ok a =>
        cases a
        rw [seqStep_events_ok _ _ _ () h6] at hx
        rcases List.mem_cons.mp hx with rfl | hx
        · decide
        rcases List.mem_append.mp hx with hx | hx
        · rw [events_athena] at hx; fin_cases hx; decide
        · simp at hx

theorem stepUpload_not_mem_runTail (env : Env) :
    Event.stepUpload ∉ (runTail env).events :=
  fun hm => absurd (runTail_events_subset env _ hm) (by decide)

/-- Claim C1 counterexample: with the Glue listing call failing with a provider
client error, the error escapes `create_glue_database` and the table and
Athena steps never run. -/
theorem glue_client_error_escapes_cex :
    (runMain envDbCrash).result = .error (.clientError "AccessDeniedException") ∧
    Event.stepTable ∉ (runMain envDbCrash).events ∧
    Event.stepAthena ∉ (runMain envDbCrash).events :=
  ⟨rfl, by decide, by decide⟩

/-- Claim C1, amended: steps 1, 2, 3 and 6 catch their provider/transport errors
locally, print a diagnostic and return normally; but steps 4 and 5 have no
handler — a provider client error raised inside `create_glue_database` or
`create_glue_table` propagates out of the step and the remaining steps are
not executed. -/
theorem stepwise_error_handling :
    (∀ code, (create_s3_bucket (.error (.clientError code))).result = .ok () ∧
             (create_s3_bucket (.error (.clientError code))).prints ≠ []) ∧
    ((fetch_nba_data (.error .requestException)).result = .ok none ∧
     (fetch_nba_data (.error .requestException)).prints ≠ []) ∧
    (∀ code, (configure_athena (.error (.clientError code))).result = .ok () ∧
             (configure_athena (.error (.clientError code))).prints ≠ []) ∧
    (∀ data body code, jsonLinesChars data = .ok body →
        (upload_to_s3 data (.error (.clientError code))).result = .ok () ∧
        (upload_to_s3 data (.error (.clientError code))).prints ≠ []) ∧
    (∀ code cd, (create_glue_database (.error (.clientError code)) cd).result
        = .error (.clientError code)) ∧
    (∀ code ct, (create_glue_table (.error (.clientError code)) ct).result
        = .error (.clientError code)) ∧
    (∀ code, (runMain (envWithDb (.error (.clientError code)))).result
        = .error (.clientError code) ∧
      Event.stepTable ∉ (runMain (envWithDb (.error (.clientError code)))).events ∧
      Event.stepAthena ∉ (runMain (envWithDb (.error (.clientError code)))).events) := by
  refine ⟨?_, ⟨rfl, by simp [fetch_nba_data]⟩, ?_, ?_, ?_, ?_, ?_⟩
  · intro code
    refine ⟨bucket_ok_of_swallowed _ (Or.inr ⟨code, rfl⟩), ?_⟩
    by_cases hc : code = "BucketAlreadyOwnedByYou" <;> simp [create_s3_bucket, hc]
  · intro code
    exact ⟨rfl, by simp [configure_athena]⟩
  · intro data body code h
    unfold upload_to_s3
    rw [h]
    exact ⟨rfl, by simp⟩
  · intro code cd
    rfl
  · intro code ct
    rfl
  · intro code
    have he : (runMain (envWithDb (.error (.clientError code)))).events
        = [Event.stepBucket, Event.callCreateBucket bucket_name, Event.stepFetch,
           Event.callHttpGet, Event.stepDatabase, Event.callGetDatabases] := rfl
    refine ⟨rfl, ?_, ?_⟩ <;> rw [he] <;> decide

theorem stepwise_error_handling_witness :
    (upload_to_s3 [] (.error (.clientError "InternalError"))).result = .ok () ∧
    (runMain (envWithDb (.error (.clientError "AccessDenied")))).result =
      .error (.clientError "AccessDenied") :=
  ⟨(stepwise_error_handling.2.2.2.1 [] [] "InternalError" rfl).1,
   (stepwise_error_handling.2.2.2.2.2.2 "AccessDenied").1⟩

theorem exit0 (s : StepOut Unit) (h : s.result = .ok ()) : exitCode s = 0 := by
  unfold exitCode; rw [h]

theorem exit1 (s : StepOut Unit) (e : Exc) (h : s.result = .error e) : exitCode s = 1 := by
  unfold exitCode; rw [h]

/-- Claim C2 counterexample: with `glue.get_tables` failing with a provider client
error (all other steps succeeding or failing only with provider errors), the
script dies on an uncaught exception and the exit status is 1, not 0. -/
theorem exit_zero_cex :
    exitCode (runMain envTableCrash) = 1 ∧
    (runMain envTableCrash).result = .error (.clientError "EntityNotFoundException") :=
  ⟨by decide, rfl⟩

/-- Claim C2, amended: as long as steps 4 and 5 raise nothing, the script always
runs to completion with exit status 0, whatever the (success or
provider-error) outcomes of steps 1, 2, 3 and 6; but a provider client
error inside step 4 or 5 terminates the process with exit status 1. -/
theorem exit_status_of_outcomes :
    (∀ env : Env, swallowedS3 env.createBucket → fetchOut env.httpGet →
       swallowedS3 env.putObject →
       (create_glue_database env.getDatabases env.createDatabase).okB = true →
       (create_glue_table env.getTables env.createTable).okB = true →
       swallowedS3 env.startQuery →
       exitCode (runMain env) = 0) ∧
    (∀ code, exitCode (runMain (envWithTable (.error (.clientError code)))) = 1) := by
  constructor
  · intro env h1 h2 h3 h4 h5 h6
    apply exit0
    unfold runMain
    rw [seqStep_result_ok _ _ _ () (bucket_ok_of_swallowed _ h1)]
    rcases h2 with hf | ⟨xs, body, hf, hbody⟩
    · have hfr : (fetch_nba_data env.httpGet).result = .ok none := by rw [hf]; rfl
      rw [seqStep_result_ok _ _ _ none hfr]
      exact runTail_ok env h4 h5 h6
    · have hfr : (fetch_nba_data env.httpGet).result = .ok (some xs) := by rw [hf]; rfl
      rw [seqStep_result_ok _ _ _ (some xs) hfr]
      cases xs with
      | nil => exact runTail_ok env h4 h5 h6
      | cons x xs' =>
        rw [seqStep_result_ok _ _ _ ()
          (upload_ok_of_swallowed (x :: xs') body env.putObject hbody h3)]
        exact runTail_ok env h4 h5 h6
  · intro code
    exact exit1 _ (.clientError code) rfl

theorem seqStep_marker_mem {α : Type} (m : Event) (s : StepOut α) (k : α → StepOut Unit) :
    m ∈ (seqStep m s k).events := by
  cases h : s.result with
  | ok a =>
    rw [seqStep_events_ok _ _ _ a h]
    exact List.mem_append.mpr (Or.inl (List.mem_cons_self _ _))
  | error e =>
    rw [seqStep_events_error _ _ _ e h]
    exact List.mem_cons_self _ _

/-- Claim C3: the fetch step returns an absent result (`None`) on any transport or
non-2xx failure, and — as long as the bucket step did not die on an uncaught
exception — the upload step is entered iff the fetch call returned a
non-empty list of records. -/
theorem fetch_failure_guards_upload (env : Env)
    (h1 : (create_s3_bucket env.createBucket).okB = true) :
    (fetch_nba_data (.error .requestException)).result = .ok none ∧
    (Event.stepUpload ∈ (runMain env).events ↔ ∃ x xs, env.httpGet = .ok (x :: xs)) := by
  refine ⟨rfl, ?_⟩
  unfold runMain
  rw [seqStep_events_ok _ _ _ () (okB_unit _ h1), events_bucket]
  cases hf : env.httpGet with
  | ok xs =>
    have hfr : (fetch_nba_data (Except.ok xs)).result = .ok (some xs) := rfl
    rw [seqStep_events_ok _ _ _ (some xs) hfr, events_fetch]
    cases xs with
    | nil =>
      constructor
      · intro hm
        rcases List.mem_append.mp hm with h | h
        · exact absurd h (by decide)
        rcases List.mem_append.mp h with h | h
        · exact absurd h (by decide)
        · exact absurd h (stepUpload_not_mem_runTail env)
      · rintro ⟨x, xs', hx⟩
        simp at hx
    | cons x xs' =>
      constructor
      · intro _
        exact ⟨x, xs', rfl⟩
      · intro _
        exact List.mem_append.mpr (Or.inr (List.mem_append.mpr
          (Or.inr (seqStep_marker_mem _ _ _))))
  | error e =>
    have hrhs : ¬ ∃ x xs, (Except.error e : Except Exc (List Record)) = .ok (x :: xs) := by
      rintro ⟨x, xs', hx⟩
      simp at hx
    cases e with
    | requestException =>
      have hfr : (fetch_nba_data (Except.error Exc.requestException)).result = .ok none := rfl
      rw [seqStep_events_ok _ _ _ none hfr, events_fetch]
      constructor
      · intro hm
        rcases List.mem_append.mp hm with h | h
        · exact absurd h (by decide)
        rcases List.mem_append.mp h with h | h
        · exact absurd h (by decide)
        · exact absurd h (stepUpload_not_mem_runTail env)
      · intro hx
        exact absurd hx hrhs
    | clientError c =>
      have hfr : (fetch_nba_data (Except.error (Exc.clientError c))).result
          = .error (.clientError c) := rfl
      rw [seqStep_events_error _ _ _ _ hfr, events_fetch]
      constructor
      · intro hm
        rcases List.mem_append.mp hm with h | h
        · exact absurd h (by decide)
        · exact absurd h (by decide)
      · intro hx
        exact absurd hx hrhs
    | otherError n =>
      have hfr : (fetch_nba_data (Except.error (Exc.otherError n))).result
          = .error (.otherError n) := rfl
      rw [seqStep_events_error _ _ _ _ hfr, events_fetch]
      constructor
      · intro hm
        rcases List.mem_append.mp hm with h | h
        · exact absurd h (by decide)
        · exact absurd h (by decide)
      · intro hx
        exact absurd hx hrhs

theorem fetch_failure_guards_upload_witness :
    (create_s3_bucket envFetchOne.createBucket).okB = true ∧
    Event.stepUpload ∈ (runMain envFetchOne).events :=
  ⟨rfl, ((fetch_failure_guards_upload envFetchOne rfl).2).mpr ⟨recABGX, [], rfl⟩⟩

/-- Claim C4: for the single record `recABGX`, the uploaded body is exactly the
JSON serialization of that object — one line, no trailing newline or
separator, nothing else. -/
theorem upload_single_record_exact :
    dumpRecordChars recABGX = .ok abgxLine ∧
    jsonLinesChars [recABGX] = .ok abgxLine ∧
    (upload_to_s3 [recABGX] (.ok ())).events =
      [Event.callPutObject bucket_name file_key abgxLine] ∧
    '\n' ∉ abgxLine :=
  ⟨rfl, rfl, rfl, by decide⟩

/-- Claim C5: bucket creation run twice never raises — the first call succeeds,
the second completes although the service reports `BucketAlreadyOwnedByYou`
— and in every case the only provider call issued is the create itself
(idempotency comes from the create call's error code, not a pre-check). -/
theorem bucket_creation_idempotent :
    (create_s3_bucket (.ok ())).result = .ok () ∧
    (create_s3_bucket (.error (.clientError "BucketAlreadyOwnedByYou"))).result = .ok () ∧
    (create_s3_bucket (.error (.clientError "BucketAlreadyOwnedByYou"))).prints =
      ["S3 bucket '" ++ bucket_name ++ "' already exists. Skipping creation."] ∧
    ∀ r, (create_s3_bucket r).events = [Event.callCreateBucket bucket_name] :=
  ⟨rfl, bucket_ok_of_swallowed _ (Or.inr ⟨_, rfl⟩),
   by simp [create_s3_bucket], events_bucket⟩

/-- Claim C6: both catalog steps issue their create call iff the listing contains
no entity with a name equal (case-sensitively) to the configured target. -/
theorem catalog_create_iff_absent :
    ∀ (dbs tbls : List String) (cd ct : Except Exc Unit),
      (Event.callCreateDatabase database_name "NBA Data Lake" ∈
          (create_glue_database (.ok dbs) cd).events ↔ database_name ∉ dbs) ∧
      (Event.callCreateTable database_name tableInputDef ∈
          (create_glue_table (.ok tbls) ct).events ↔ table_name ∉ tbls) := by
  intro dbs tbls cd ct
  constructor
  · by_cases h : dbs.any (fun db => db == database_name)
    · have hmem : database_name ∈ dbs := by
        simp only [List.any_eq_true, beq_iff_eq] at h
        obtain ⟨x, hx, rfl⟩ := h
        exact hx
      simp [create_glue_database, h, hmem]
    · have hmem : database_name ∉ dbs := by
        intro hm
        exact h (List.any_eq_true.mpr ⟨database_name, hm, by simp⟩)
      cases cd with
      | ok a => simp [create_glue_database, h, hmem]
      | error e => simp [create_glue_database, h, hmem]
  · by_cases h : tbls.any (fun tbl => tbl == table_name)
    · have hmem : table_name ∈ tbls := by
        simp only [List.any_eq_true, beq_iff_eq] at h
        obtain ⟨x, hx, rfl⟩ := h
        exact hx
      simp [create_glue_table, h, hmem]
    · have hmem : table_name ∉ tbls := by
        intro hm
        exact h (List.any_eq_true.mpr ⟨table_name, hm, by simp⟩)
      cases ct with
      | ok a => simp [create_glue_table, h, hmem]
      | error e => simp [create_glue_table, h, hmem]

/-- Claim C7: when the table step does create a table, what it creates is an
external table with exactly the four string columns, whose location is the
`raw-data/` prefix under which step 3 uploads its object, with text
input/output formats and the JSON serde. -/
theorem glue_table_definition :
    ∀ (tbls : List String) (ct : Except Exc Unit), table_name ∉ tbls →
      (create_glue_table (.ok tbls) ct).events =
        [Event.callGetTables database_name,
         Event.callCreateTable database_name tableInputDef] ∧
      tableInputDef.tableType = "EXTERNAL_TABLE" ∧
      tableInputDef.columns = [("FirstName", "string"), ("LastName", "string"),
        ("Position", "string"), ("Team", "string")] ∧
      tableInputDef.location = "s3://" ++ bucket_name ++ "/raw-data/" ∧
      tableInputDef.location ++ "nba_player_data.jsonl" =
        "s3://" ++ bucket_name ++ "/" ++ file_key ∧
      tableInputDef.inputFormat = "org.apache.hadoop.mapred.TextInputFormat" ∧
      tableInputDef.outputFormat =
        "org.apache.hadoop.hive.ql.io.HiveIgnoreKeyTextOutputFormat" ∧
      tableInputDef.serializationLibrary = "org.openx.data.jsonserde.JsonSerDe" := by
  intro tbls ct hmem
  have h : tbls.any (fun tbl => tbl == table_name) = false := by
    rw [Bool.eq_false_iff]
    intro ha
    simp only [List.any_eq_true, beq_iff_eq] at ha
    obtain ⟨x, hx, rfl⟩ := ha
    exact hmem hx
  refine ⟨?_, rfl, rfl, rfl, by decide, rfl, rfl, rfl⟩
  cases ct with
  | ok a => simp [create_glue_table, h]
  | error e => simp [create_glue_table, h]

theorem glue_table_definition_witness :
    table_name ∉ ([] : List String) ∧
    (create_glue_table (.ok []) (.ok ())).events =
      [Event.callGetTables database_name,
       Event.callCreateTable database_name tableInputDef] :=
  ⟨by simp, (glue_table_definition [] (.ok ()) (by simp)).1⟩

/-- Claim C8: when the fetch fails with a transport error or returns an empty
list, the upload step is skipped, yet the database, table and Athena steps
are all still attempted, in that order (provided the bucket step and the
two unguarded catalog steps raise nothing themselves). -/
theorem catalog_steps_unconditional (env : Env)
    (hf : env.httpGet = .error .requestException ∨ env.httpGet = .ok [])
    (h1 : (create_s3_bucket env.createBucket).okB = true)
    (h4 : (create_glue_database env.getDatabases env.createDatabase).okB = true)
    (h5 : (create_glue_table env.getTables env.createTable).okB = true) :
    Event.stepUpload ∉ (runMain env).events ∧
    ((runMain env).events).filter isMarker =
      [Event.stepBucket, Event.stepFetch, Event.stepDatabase, Event.stepTable,
       Event.stepAthena] := by
  unfold runMain
  rw [seqStep_events_ok _ _ _ () (okB_unit _ h1), events_bucket]
  rcases hf with hf | hf <;> rw [hf]
  · have hfr : (fetch_nba_data (Except.error Exc.requestException)).result = .ok none := rfl
    rw [seqStep_events_ok _ _ _ none hfr, events_fetch]
    constructor
    · intro hm
      rcases List.mem_append.mp hm with h | h
      · exact absurd h (by decide)
      rcases List.mem_append.mp h with h | h
      · exact absurd h (by decide)
      · exact absurd h (stepUpload_not_mem_runTail env)
    · rw [List.filter_append, List.filter_append]
      rw [markers_runTail env h4 h5]
      rfl
  · have hfr : (fetch_nba_data (Except.ok ([] : List Record))).result = .ok (some []) := rfl
    rw [seqStep_events_ok _ _ _ (some []) hfr, events_fetch]
    constructor
    · intro hm
      rcases List.mem_append.mp hm with h | h
      · exact absurd h (by decide)
      rcases List.mem_append.mp h with h | h
      · exact absurd h (by decide)
      · exact absurd h (stepUpload_not_mem_runTail env)
    · rw [List.filter_append, List.filter_append]
      rw [markers_runTail env h4 h5]
      rfl

theorem catalog_steps_unconditional_witness :
    (envAllOk.httpGet = .error .requestException ∨ envAllOk.httpGet = .ok []) ∧
    ((runMain envAllOk).events).filter isMarker =
      [Event.stepBucket, Event.stepFetch, Event.stepDatabase, Event.stepTable,
       Event.stepAthena] :=
  ⟨Or.inr rfl, (catalog_steps_unconditional envAllOk (Or.inr rfl) rfl rfl rfl).2⟩

theorem jsonLines_structure_witness :
    jsonLinesChars [recABGX] = .ok abgxLine ∧
    (∃ ls : List (List Char),
      ls.length = [recABGX].length ∧
      (∀ i (h1 : i < [recABGX].length) (h2 : i < ls.length),
          dumpRecordChars ([recABGX].get ⟨i, h1⟩) = .ok (ls.get ⟨i, h2⟩)) ∧
      abgxLine = joinNL ls ∧
      (∀ l ∈ ls, '\n' ∉ l) ∧
      ([recABGX] ≠ [] → splitNL abgxLine = ls ∧ abgxLine.getLast? = some '\x7d')) :=
  ⟨rfl, jsonLines_structure [recABGX] abgxLine rfl⟩

/-- Claim C10: only ClientError is caught in the guarded steps (bucket, upload,
Athena); any other exception — e.g. the `TypeError` from serializing an
unserializable record — escapes the step, and at the top level terminates
the script before the remaining steps run. -/
theorem non_client_errors_propagate :
    (∀ e : Exc, e.isClientError = false →
       (create_s3_bucket (.error e)).result = .error e ∧
       (configure_athena (.error e)).result = .error e ∧
       ∀ data body, jsonLinesChars data = .ok body →
         (upload_to_s3 data (.error e)).result = .error e) ∧
    (∀ p, (upload_to_s3 [[("Team", JValue.unserializable)]] p).result =
            .error (.otherError "TypeError") ∧
          (upload_to_s3 [[("Team", JValue.unserializable)]] p).events = []) ∧
    (∀ n, (runMain (envPutCrash n)).result = .error (.otherError n) ∧
          Event.stepDatabase ∉ (runMain (envPutCrash n)).events ∧
          Event.stepTable ∉ (runMain (envPutCrash n)).events ∧
          Event.stepAthena ∉ (runMain (envPutCrash n)).events) := by
  refine ⟨?_, ?_, ?_⟩
  · intro e he
    cases e with
    | clientError c => cases he
    | requestException =>
      refine ⟨rfl, rfl, ?_⟩
      intro data body h
      unfold upload_to_s3
      rw [h]
    | otherError n =>
      refine ⟨rfl, rfl, ?_⟩
      intro data body h
      unfold upload_to_s3
      rw [h]
  · intro p
    exact ⟨rfl, rfl⟩
  · intro n
    have he : (runMain (envPutCrash n)).events =
        [Event.stepBucket, Event.callCreateBucket bucket_name] ++
        ([Event.stepFetch, Event.callHttpGet] ++
         [Event.stepUpload, Event.callPutObject bucket_name file_key abgxLine]) := rfl
    refine ⟨rfl, ?_, ?_, ?_⟩ <;> rw [he] <;> decide

theorem exit_status_of_outcomes_witness :
    swallowedS3 envAllOk.createBucket ∧ fetchOut envAllOk.httpGet ∧
    exitCode (runMain envAllOk) = 0 :=
  ⟨Or.inl rfl, Or.inr ⟨[], [], rfl, rfl⟩,
   exit_status_of_outcomes.1 envAllOk (Or.inl rfl) (Or.inr ⟨[], [], rfl, rfl⟩)
     (Or.inl rfl) rfl rfl (Or.inl rfl)⟩

theorem non_client_errors_propagate_witness :
    (Exc.otherError "ValueError").isClientError = false ∧
    (create_s3_bucket (.error (.otherError "ValueError"))).result =
      .error (.otherError "ValueError") ∧
    (upload_to_s3 [] (.error (.otherError "ValueError"))).result =
      .error (.otherError "ValueError") :=
  ⟨rfl, (non_client_errors_propagate.1 (.otherError "ValueError") rfl).1,
   (non_client_errors_propagate.1 (.otherError "ValueError") rfl).2.2 [] [] rfl⟩
